import Mathlib

/-! Memoreal back end: authentication and identity linkage.

A shallow embedding of the request handlers of `src/app.js` that deal with
credentials: `POST /api/login`, `POST /api/addUser`,
`PUT /api/updateUser/:username` and the `authenticateToken` middleware.

The handlers talk to three external collaborators: the SQL store (`mssql`),
the password hasher (`bcrypt`) and the token library (`jsonwebtoken`).  Each
collaborator call is a field of `Env` returning `Except JsErr _`, so that a
rejected promise or an error handed to a callback is an `.error`.  A handler
is a state transformer over `Ctx`, the per-request mutable state (session,
`req.userId`, responses sent, calls made, `next()` count).
-/

namespace Memoreal

/-! ## JavaScript values -/

/-- The JavaScript values that flow through the handlers. -/
inductive JsVal where
  | undefined
  | null
  | bool (b : Bool)
  | num (n : Int)
  | str (s : String)
deriving DecidableEq

/-- JavaScript truthiness, as used by `if (x)`, `!x` and `x && y`. -/
def JsVal.truthy : JsVal → Bool
  | .undefined => false
  | .null => false
  | .bool b => b
  | .num n => n != 0
  | .str s => s != ""

/-- A plain JavaScript object: its own properties, in insertion order. -/
abbrev JsObj := List (String × JsVal)

/-- Property read `o.k`: `undefined` when the property is absent. -/
def JsObj.get : JsObj → String → JsVal
  | [], _ => .undefined
  | (k, v) :: rest, key => if k = key then v else JsObj.get rest key

/-- Property write `o.k = v`: replaces the property or appends it. -/
def JsObj.set : JsObj → String → JsVal → JsObj
  | [], key, v => [(key, v)]
  | (k, w) :: rest, key, v =>
    if k = key then (k, v) :: rest else (k, w) :: JsObj.set rest key v

/-- A thrown error, a rejected promise or the `err` argument of a callback. -/
structure JsErr where
  message : String
deriving DecidableEq

/-! ## Store parameters, responses, observable calls -/

/-- The `mssql` column types named by the handlers. -/
inductive SqlType where
  | VarChar
  | Int
deriving DecidableEq

/-- One `.input(name, type, value)` binding on a store request. -/
structure SqlParam where
  name : String
  type : SqlType
  value : JsVal
deriving DecidableEq

/-- The body of a response: `res.json(obj)` or `res.send(text)`. -/
inductive Body where
  | json (obj : JsObj)
  | text (s : String)
deriving DecidableEq

/-- A response written to `res`. -/
structure Response where
  status : Nat
  body : Body
deriving DecidableEq

/-- The calls a handler makes on its collaborators, in program order. -/
inductive Event where
  | query (text : String) (inputs : List SqlParam)
  | execute (proc : String) (inputs : List SqlParam)
  | bcryptCompare (data hash : JsVal)
  | bcryptHash (data : JsVal) (saltRounds : Nat)
  | jwtSign (payload : JsObj) (secret : JsVal) (expiresIn : String)
  | jwtVerify (token : String) (secret : String)
  | consoleError (label : String)
  | next
deriving DecidableEq

/-- The process-wide configuration and the external collaborators.
`JWT_SECRET` is `process.env.JWT_SECRET` (line 21): a string, or `undefined`
when the variable is not set. -/
structure Env where
  JWT_SECRET : JsVal
  query : String → List SqlParam → Except JsErr (List JsObj)
  execute : String → List SqlParam → Except JsErr (List JsObj)
  compare : JsVal → JsVal → Except JsErr Bool
  hash : JsVal → Nat → Except JsErr String
  sign : JsObj → JsVal → String → Except JsErr String
  verify : String → String → Except JsErr JsObj

/-- The mutable state of one request: `req.session`, `req.userId`, what was
written to `res`, the collaborator calls made and how often `next()` ran. -/
structure Ctx where
  session : JsObj
  userId : JsVal
  sent : List Response
  trace : List Event
  nextCalls : Nat
deriving DecidableEq

/-- A fresh request: nothing sent, nothing called, `req.userId` unset. -/
def Ctx.fresh (session : JsObj) : Ctx :=
  { session := session, userId := .undefined, sent := [], trace := [], nextCalls := 0 }

/-! ## The handler monad -/

/-- A handler step: runs on the request state and either yields a value or
throws; the state changes made before a throw are kept. -/
def Handler (α : Type) : Type := Ctx → Except JsErr α × Ctx

/-- Run a handler step on a request state. -/
def Handler.run {α : Type} (h : Handler α) (c : Ctx) : Except JsErr α × Ctx := h c

/-- A step that yields `a` and changes nothing. -/
def Handler.pure {α : Type} (a : α) : Handler α := fun c => (.ok a, c)

/-- Sequencing: a throw in the first step skips the rest. -/
def Handler.bind {α β : Type} (m : Handler α) (f : α → Handler β) : Handler β :=
  fun c =>
    match m c with
    | (.ok a, c1) => f a c1
    | (.error e, c1) => (.error e, c1)

instance : Monad Handler where
  pure := Handler.pure
  bind := Handler.bind

/-- Statement `try { body } catch (err) { handler }`. -/
def tryCatch (body : Handler Unit) (handler : JsErr → Handler Unit) : Handler Unit :=
  fun c =>
    match body c with
    | (.ok a, c1) => (.ok a, c1)
    | (.error e, c1) => handler e c1

/-- Call a collaborator: the call is recorded, then its result is yielded or
its error thrown (`await` on a promise). -/
def call {α : Type} (ev : Event) (r : Except JsErr α) : Handler α :=
  fun c => (r, { c with trace := c.trace ++ [ev] })

/-- Call a collaborator in callback style: the call is recorded and the
outcome, error or value, is handed to the callback; nothing is thrown. -/
def callCb {α : Type} (ev : Event) (r : Except JsErr α) : Handler (Except JsErr α) :=
  fun c => (.ok r, { c with trace := c.trace ++ [ev] })

/-- Expression statement `console.error(label, err)`. -/
def consoleError (label : String) : Handler Unit :=
  fun c => (.ok (), { c with trace := c.trace ++ [.consoleError label] })

/-- Statement `res.status(code).json(obj)` or `res.status(code).send(text)`. -/
def send (status : Nat) (body : Body) : Handler Unit :=
  fun c => (.ok (), { c with sent := c.sent ++ [{ status := status, body := body }] })

/-- The reason phrase `res.sendStatus` writes as the body. -/
def statusText (code : Nat) : String :=
  if code = 401 then "Unauthorized"
  else if code = 403 then "Forbidden"
  else toString code

/-- Statement `res.sendStatus(code)`. -/
def sendStatus (code : Nat) : Handler Unit :=
  send code (.text (statusText code))

/-- Assignment `req.session.k = v`. -/
def setSession (k : String) (v : JsVal) : Handler Unit :=
  fun c => (.ok (), { c with session := c.session.set k v })

/-- Assignment `req.userId = v`. -/
def setUserId (v : JsVal) : Handler Unit :=
  fun c => (.ok (), { c with userId := v })

/-- Statement `next()`: hands the request to the downstream handler. -/
def next : Handler Unit :=
  fun c => (.ok (), { c with trace := c.trace ++ [.next], nextCalls := c.nextCalls + 1 })

/-! ## `POST /api/login` (lines 89-128) -/

/-- The text of the lookup query of the login route. -/
def loginQuery : String := "SELECT * FROM [USER] WHERE USERNAME = @username"

/-- The body of the 200 response of the login route. -/
def loginOkBody (accessToken : String) (userId : JsVal) : Body :=
  .json [("success", .bool true), ("message", .str "Login successful"),
         ("accessToken", .str accessToken), ("userId", userId)]

/-- The handler of `POST /api/login`; `body` is `req.body`. -/
def login (env : Env) (body : JsObj) : Handler Unit :=
  let username := body.get "username"
  let password := body.get "password"
  tryCatch
    (do
      let inputs := [{ name := "username", type := .VarChar, value := username : SqlParam }]
      let recordset ← call (.query loginQuery inputs) (env.query loginQuery inputs)
      if recordset.length > 0 then
        let user := recordset.headD []
        let isPasswordMatch ←
          call (.bcryptCompare password (user.get "HASHED_PASSWORD"))
            (env.compare password (user.get "HASHED_PASSWORD"))
        if isPasswordMatch then
          let userIdFromDatabase := user.get "USERID"
          let userPayload : JsObj := [("id", userIdFromDatabase)]
          let accessToken ←
            call (.jwtSign userPayload env.JWT_SECRET "1h")
              (env.sign userPayload env.JWT_SECRET "1h")
          setSession "userId" userIdFromDatabase
          send 200 (loginOkBody accessToken userIdFromDatabase)
        else
          send 401 (.json [("success", .bool false),
                           ("message", .str "Invalid username or password")])
      else
        send 404 (.json [("success", .bool false), ("message", .str "User not found")]))
    (fun _err => do
      consoleError "SQL query error:"
      send 500 (.text "An unexpected error occurred."))

/-! ## `POST /api/addUser` (lines 156-181) -/

/-- The inputs bound on the `SP_INSERT_USER` request, in binding order. -/
def addUserInputs (body : JsObj) (hashedPassword : String) : List SqlParam :=
  [ { name := "FIRST_NAME", type := .VarChar, value := body.get "FIRST_NAME" },
    { name := "LAST_NAME", type := .VarChar, value := body.get "LAST_NAME" },
    { name := "MI", type := .VarChar, value := body.get "MI" },
    { name := "USERNAME", type := .VarChar, value := body.get "USERNAME" },
    { name := "CONTACT_NUMBER", type := .VarChar, value := body.get "CONTACT_NUMBER" },
    { name := "EMAIL", type := .VarChar, value := body.get "EMAIL" },
    { name := "BIRTHDATE", type := .VarChar, value := body.get "BIRTHDATE" },
    { name := "PICTURE", type := .VarChar, value := body.get "PICTURE" },
    { name := "HASHED_PASSWORD", type := .VarChar, value := .str hashedPassword } ]

/-- The generic failure body shared by the catch branches. -/
def genericFailure : Body :=
  .json [("success", .bool false),
         ("message", .str "An unexpected error occurred. Please try again later.")]

/-- The handler of `POST /api/addUser`; `body` is `req.body`. -/
def addUser (env : Env) (body : JsObj) : Handler Unit :=
  let PASSWORD := body.get "PASSWORD"
  tryCatch
    (do
      let saltRounds := 10
      let hashedPassword ← call (.bcryptHash PASSWORD saltRounds) (env.hash PASSWORD saltRounds)
      let inputs := addUserInputs body hashedPassword
      let _result ← call (.execute "SP_INSERT_USER" inputs) (env.execute "SP_INSERT_USER" inputs)
      send 201 (.json [("success", .bool true),
                       ("message", .str "User registered successfully")]))
    (fun _err => do
      consoleError "Error registering user:"
      send 500 genericFailure)

/-! ## `PUT /api/updateUser/:username` (lines 184-218) -/

/-- The inputs bound on the `SP_UPDATE_USER` request before the password
branch (lines 189-196); `username` is `req.params.username`. -/
def updateUserInputs (username : String) (body : JsObj) : List SqlParam :=
  [ { name := "USERNAME", type := .VarChar, value := .str username },
    { name := "FIRST_NAME", type := .VarChar, value := body.get "FIRST_NAME" },
    { name := "LAST_NAME", type := .VarChar, value := body.get "LAST_NAME" },
    { name := "MI", type := .VarChar, value := body.get "MI" },
    { name := "CONTACT_NUMBER", type := .VarChar, value := body.get "CONTACT_NUMBER" },
    { name := "EMAIL", type := .VarChar, value := body.get "EMAIL" },
    { name := "BIRTHDATE", type := .VarChar, value := body.get "BIRTHDATE" },
    { name := "PICTURE", type := .VarChar, value := body.get "PICTURE" } ]

/-- The handler of `PUT /api/updateUser/:username`.  The stored procedure is
run in callback style: its error reaches the callback, not the catch. -/
def updateUser (env : Env) (username : String) (body : JsObj) : Handler Unit :=
  let PASSWORD := body.get "PASSWORD"
  tryCatch
    (do
      let request := updateUserInputs username body
      let request ←
        if PASSWORD.truthy then do
          let saltRounds := 10
          let hashedPassword ←
            call (.bcryptHash PASSWORD saltRounds) (env.hash PASSWORD saltRounds)
          pure (request ++ [{ name := "NEW_HASHED_PASSWORD", type := .VarChar,
                              value := .str hashedPassword : SqlParam }])
        else
          pure (request ++ [{ name := "NEW_HASHED_PASSWORD", type := .VarChar,
                              value := .null : SqlParam }])
      let outcome ←
        callCb (.execute "SP_UPDATE_USER" request) (env.execute "SP_UPDATE_USER" request)
      match outcome with
      | .error _err => do
        consoleError "Error executing SP_UPDATE_USER:"
        send 500 (.json [("error", .str "Error executing SP_UPDATE_USER")])
      | .ok _result =>
        send 200 (.json [("success", .bool true),
                         ("message", .str "Updated user information successfully")]))
    (fun _err => do
      consoleError "Error updating user:"
      send 500 genericFailure)

/-! ## `authenticateToken` (lines 624-634) -/

/-- Splits a character list at every occurrence of `sep`, keeping empty
segments: the segments of `String.prototype.split` on a one-character
separator. -/
def splitChars (sep : Char) : List Char → List (List Char)
  | [] => [[]]
  | c :: cs =>
    match splitChars sep cs with
    | [] => [[]]
    | seg :: segs => if c = sep then [] :: seg :: segs else (c :: seg) :: segs

/-- Expression `s.split(sep)` for a one-character separator. -/
def jsSplit (s : String) (sep : Char) : List String :=
  (splitChars sep s.toList).map String.mk

/-- Expression `authHeader && authHeader.split(' ')[1]` (line 626); `none` is
`undefined`, and a header is a string or `undefined`. -/
def bearerToken (authHeader : Option String) : Option String :=
  match authHeader with
  | none => none
  | some h => if h = "" then some h else (jsSplit h ' ')[1]?

/-- The secret literal the middleware verifies with (line 629). -/
def verifySecret : String := "memoreal_secret"

/-- The middleware `authenticateToken`; `authorization` is
`req.headers['authorization']`. -/
def authenticateToken (env : Env) (authorization : Option String) : Handler Unit :=
  let authHeader := authorization
  let token := bearerToken authHeader
  match token with
  | none => sendStatus 401
  | some t =>
    if t = "" then sendStatus 401
    else do
      let outcome ← callCb (.jwtVerify t verifySecret) (env.verify t verifySecret)
      match outcome with
      | .error _err => sendStatus 403
      | .ok user => do
        setUserId (user.get "id")
        next

/-! ## Observations on a run -/

/-- The store calls of a trace: statement or procedure name with the inputs
bound on the request, in program order. -/
def storeCalls : List Event → List (String × List SqlParam)
  | [] => []
  | .query text inputs :: rest => (text, inputs) :: storeCalls rest
  | .execute proc inputs :: rest => (proc, inputs) :: storeCalls rest
  | _ :: rest => storeCalls rest

/-- The `bcrypt.hash` calls of a trace: plaintext and cost factor. -/
def hashCalls : List Event → List (JsVal × Nat)
  | [] => []
  | .bcryptHash data saltRounds :: rest => (data, saltRounds) :: hashCalls rest
  | _ :: rest => hashCalls rest

/-! ## Reference collaborators

Executable stand-ins for the three libraries, used to run the handlers on
concrete requests.  Digests and signatures are symbolic: a digest names the
plaintext it was computed from and a signature names the key that made it, so
verification recomputes and compares, as the libraries do. -/

/-- Reads a run of decimal digits; `none` on an empty run or a non-digit. -/
def parseDigits : List Char → Option Nat
  | [] => none
  | cs =>
    cs.foldl
      (fun acc c =>
        match acc with
        | none => none
        | some n => if c.isDigit then some (10 * n + (c.toNat - 48)) else none)
      (some 0)

/-- Symbolic digest of a plaintext under a cost factor, in the layout of a
bcrypt digest: version, cost, then the salted hash. -/
def symbolicDigest (plaintext : String) (saltRounds : Nat) : String :=
  "$2b$" ++ Nat.repr saltRounds ++ "$" ++ plaintext

/-- Library `bcrypt.hash(data, saltRounds)`: rejects when the data is missing
or is not a string, else resolves to the digest. -/
def bcryptHash (data : JsVal) (saltRounds : Nat) : Except JsErr String :=
  match data with
  | .undefined => .error { message := "data and salt arguments required" }
  | .null => .error { message := "data and salt arguments required" }
  | .str plaintext => .ok (symbolicDigest plaintext saltRounds)
  | _ => .error { message := "data must be a string or Buffer and salt must either be a salt string or a number of rounds" }

/-- The native comparison behind `bcrypt.compare`: a digest that does not
parse is a non-match. -/
def digestMatches (plaintext digest : String) : Bool :=
  match jsSplit digest '$' with
  | [lead, version, cost, rest] =>
    lead == "" && version == "2b" && (parseDigits cost.toList).isSome && rest == plaintext
  | _ => false

/-- Library `bcrypt.compare(data, hash)`: the argument checks the library
makes before the native comparison.  A missing argument (`null` or
`undefined`) rejects with `data and hash arguments required`; a non-string
rejects with `data and hash must be strings`. -/
def bcryptCompare (data hash : JsVal) : Except JsErr Bool :=
  match data, hash with
  | .undefined, _ => .error { message := "data and hash arguments required" }
  | .null, _ => .error { message := "data and hash arguments required" }
  | _, .undefined => .error { message := "data and hash arguments required" }
  | _, .null => .error { message := "data and hash arguments required" }
  | .str plaintext, .str digest => .ok (digestMatches plaintext digest)
  | _, _ => .error { message := "data and hash must be strings" }

/-- Symbolic keyed signature of a claims text. -/
def symbolicMac (secret claims : String) : String :=
  secret ++ "#" ++ claims

/-- Library `jwt.sign(payload, secret, { expiresIn })` at clock `now` (in
seconds) for a payload with a natural-number `id`: the token carries `id`,
issue time, expiry and the signature of these three under `secret`. -/
def jwtSign (now : Nat) (payload : JsObj) (secret : JsVal) (expiresIn : String) :
    Except JsErr String :=
  match secret with
  | .str key =>
    if key = "" then .error { message := "secretOrPrivateKey must have a value" }
    else if expiresIn ≠ "1h" then .error { message := "unsupported expiresIn" }
    else
      match payload.get "id" with
      | .num (.ofNat id) =>
        let idText := Nat.repr id
        let iatText := Nat.repr now
        let expText := Nat.repr (now + 3600)
        .ok (idText ++ "." ++ iatText ++ "." ++ expText ++ "." ++
              symbolicMac key (idText ++ "#" ++ iatText ++ "#" ++ expText))
      | _ => .error { message := "unsupported payload" }
  | _ => .error { message := "secretOrPrivateKey must have a value" }

/-- Library `jwt.verify(token, secret)` at clock `now`: recomputes the
signature under `secret`, then checks the expiry, then yields the payload. -/
def jwtVerify (now : Nat) (token : String) (secret : String) : Except JsErr JsObj :=
  match jsSplit token '.' with
  | [idText, iatText, expText, signature] =>
    match parseDigits idText.toList, parseDigits iatText.toList, parseDigits expText.toList with
    | some id, some iat, some exp =>
      if signature ≠ symbolicMac secret (idText ++ "#" ++ iatText ++ "#" ++ expText) then
        .error { message := "invalid signature" }
      else if exp ≤ now then .error { message := "jwt expired" }
      else .ok [("id", .num id), ("iat", .num iat), ("exp", .num exp)]
    | _, _, _ => .error { message := "jwt malformed" }
  | _ => .error { message := "jwt malformed" }

/-- A store holding the rows `users`: the login query selects by `USERNAME`,
the two user procedures succeed, anything else is rejected. -/
def storeQuery (users : List JsObj) (text : String) (inputs : List SqlParam) :
    Except JsErr (List JsObj) :=
  match inputs with
  | [p] =>
    if text = loginQuery ∧ p.name = "username" then
      .ok (users.filter (fun row => row.get "USERNAME" == p.value))
    else .error { message := "unsupported statement" }
  | _ => .error { message := "unsupported statement" }

/-- Stored-procedure execution of the reference store. -/
def storeExecute (proc : String) (_inputs : List SqlParam) : Except JsErr (List JsObj) :=
  if proc = "SP_INSERT_USER" ∨ proc = "SP_UPDATE_USER" then .ok []
  else .error { message := "Could not find stored procedure" }

/-- The reference environment: configured secret, clock and stored rows. -/
def refEnv (secret : JsVal) (now : Nat) (users : List JsObj) : Env :=
  { JWT_SECRET := secret
    query := storeQuery users
    execute := storeExecute
    compare := bcryptCompare
    hash := bcryptHash
    sign := jwtSign now
    verify := jwtVerify now }

/-- Two stored users: `alice` with a digest of `secret123`, and `bob` whose
password column is `NULL`. -/
def sampleUsers : List JsObj :=
  [ [("USERID", .num 7), ("USERNAME", .str "alice"),
     ("HASHED_PASSWORD", .str "$2b$10$secret123")],
    [("USERID", .num 8), ("USERNAME", .str "bob"), ("HASHED_PASSWORD", .null)] ]

/-- The row of `alice` in `sampleUsers`. -/
def aliceRow : JsObj :=
  [("USERID", .num 7), ("USERNAME", .str "alice"),
   ("HASHED_PASSWORD", .str "$2b$10$secret123")]

/-- The row of `bob` in `sampleUsers`. -/
def bobRow : JsObj :=
  [("USERID", .num 8), ("USERNAME", .str "bob"), ("HASHED_PASSWORD", .null)]

/-- A deployment whose configured signing secret is `prod-secret`, at clock
1000. -/
def prodEnv : Env := refEnv (.str "prod-secret") 1000 sampleUsers

/-- The login request of `alice` with her password. -/
def aliceLogin : JsObj := [("username", .str "alice"), ("password", .str "secret123")]

/-- The token the login route issues to `alice` under `prodEnv`. -/
def aliceToken : String := "7.1000.4600.prod-secret#7#1000#4600"

/-- A login request of `alice` with a wrong password. -/
def aliceWrongLogin : JsObj := [("username", .str "alice"), ("password", .str "letmein")]

/-- A login request for a username the store does not hold. -/
def carolLogin : JsObj := [("username", .str "carol"), ("password", .str "secret123")]

/-- A login request of `bob`, whose stored password column is `NULL`. -/
def bobLogin : JsObj := [("username", .str "bob"), ("password", .str "secret123")]

/-- A token for user 7 signed at clock 1000 under the literal
`memoreal_secret`, which is not the secret configured in `prodEnv`. -/
def literalSecretToken : String := "7.1000.4600.memoreal_secret#7#1000#4600"

/-- The `username` input bound on the login lookup (line 94). -/
def loginInputs (body : JsObj) : List SqlParam :=
  [{ name := "username", type := .VarChar, value := body.get "username" }]

/-- The body of the 401 response of the login route. -/
def loginMismatchBody : Body :=
  .json [("success", .bool false), ("message", .str "Invalid username or password")]

/-- The body of the 404 response of the login route. -/
def loginNotFoundBody : Body :=
  .json [("success", .bool false), ("message", .str "User not found")]

/-- The body of the 201 response of the registration route. -/
def addUserOkBody : Body :=
  .json [("success", .bool true), ("message", .str "User registered successfully")]

/-- Statement `delete o.k`: the object without the property `k`. -/
def JsObj.delete (o : JsObj) (key : String) : JsObj :=
  o.filter (fun kv => kv.1 != key)

/-! ## `POST /api/addTribute` (lines 561-577) -/

/-- Statement `throw`: also what the runtime does on a failed evaluation. -/
def raise {α : Type} (message : String) : Handler α :=
  fun c => (.error { message := message }, c)

/-- The identifiers that resolve inside the handler of `POST /api/addTribute`:
the module-level `const` declarations (lines 1-21, 35-57, 624, 637-638), the
CommonJS wrapper names and the globals the file uses, `pool` (line 65),
the handler parameters and its own `const` declarations (lines 561-571).
No other declaration of the file encloses the handler, and Node defines no
global named `input`, `OFFEREDFLOWER` or `guestbookId`. -/
def addTributeScope : List String :=
  ["express", "sql", "bcrypt", "jwt", "session", "axios", "dotenv", "multer", "path",
   "FormData", "IMGUR_CLIENT_ID", "app", "port", "JWT_SECRET", "config", "storage",
   "upload", "authenticateToken", "DID_API_KEY", "BASE_URL",
   "require", "module", "exports", "__filename", "__dirname",
   "console", "process", "Date", "parseInt",
   "pool", "req", "res", "USERID", "OFFEREDCANDLE", "LIGHTEDCANDLE", "result",
   "tributeId", "err"]

/-- Evaluation of an identifier reference: an identifier that no enclosing
scope binds throws a `ReferenceError`. -/
def resolve (scope : List String) (name : String) : Handler Unit :=
  if name ∈ scope then Handler.pure () else raise (name ++ " is not defined")

/-- The inputs the chain of lines 566-568 would bind; `offeredFlower` stands
for the value of the identifier `OFFEREDFLOWER`. -/
def addTributeInputs (body : JsObj) (offeredFlower : JsVal) : List SqlParam :=
  [ { name := "USERID", type := .Int, value := body.get "USERID" },
    { name := "OFFEREDFLOWER", type := .VarChar, value := offeredFlower },
    { name := "LIGHTEDCANDLE", type := .VarChar, value := body.get "LIGHTEDCANDLE" } ]

/-- The handler of `POST /api/addTribute`; `body` is `req.body`.  Line 565
ends the declaration `const result = await pool.request()`: the next line
starts with the identifier `input`, which cannot continue the expression, so
a semicolon is inserted at the line break.  Lines 566-569 are then an
expression statement that calls `input(...)`; its callee is evaluated first.
After it `result` is still the request object of line 565, which has no
`recordset`. -/
def addTribute (env : Env) (body : JsObj) : Handler Unit :=
  tryCatch
    (do
      resolve addTributeScope "input"
      resolve addTributeScope "OFFEREDFLOWER"
      let inputs := addTributeInputs body .undefined
      let _chained ←
        call (.execute "SP_INSERT_TRIBUTE" inputs) (env.execute "SP_INSERT_TRIBUTE" inputs)
      let _tributeId : JsVal ← raise "Cannot read properties of undefined"
      resolve addTributeScope "guestbookId"
      send 201 (.json [("success", .bool true), ("guestbookId", .undefined),
                       ("message", .str "Tribute registered successfully")]))
    (fun _err => do
      consoleError "Error registering tribute:"
      send 500 genericFailure)

/-! ## Further reference data -/

/-- The deployment of `prodEnv` while the store is unreachable: every query
rejects. -/
def downEnv : Env :=
  { prodEnv with query := fun _ _ => .error { message := "Connection is closed." } }

/-- The deployment of `prodEnv` with `JWT_SECRET` not set. -/
def noSecretEnv : Env := refEnv .undefined 1000 sampleUsers

/-- The registration request of `alice`. -/
def aliceRegistration : JsObj :=
  [("FIRST_NAME", .str "Alice"), ("LAST_NAME", .str "Doe"), ("USERNAME", .str "alice"),
   ("PASSWORD", .str "secret123"), ("EMAIL", .str "alice@example.org")]

/-- A tribute request. -/
def sampleTribute : JsObj :=
  [("USERID", .num 7), ("OFFEREDCANDLE", .str "1"), ("LIGHTEDCANDLE", .str "1")]

/-- The text body of the catch branch of the login route (line 126). -/
def loginErrorText : Body := .text "An unexpected error occurred."

/-! ## Malformed digests and the store after a registration -/

/-- Whether a string has the layout of a digest: the layout test the native
comparison of `digestMatches` makes before it compares. -/
def wellFormedDigest (digest : String) : Bool :=
  match jsSplit digest '$' with
  | [lead, version, cost, _rest] =>
    lead == "" && version == "2b" && (parseDigits cost.toList).isSome
  | _ => false

/-- A stored user whose password column holds a string that is not a
digest. -/
def malloryRow : JsObj :=
  [("USERID", .num 9), ("USERNAME", .str "mallory"), ("HASHED_PASSWORD", .str "notahash")]

/-- The deployment of `prodEnv` with `mallory` stored as well. -/
def legacyEnv : Env := refEnv (.str "prod-secret") 1000 (sampleUsers ++ [malloryRow])

/-- A login request of `mallory`. -/
def malloryLogin : JsObj := [("username", .str "mallory"), ("password", .str "secret123")]

/-- A login request of `mallory` that carries no password. -/
def malloryNoPassword : JsObj := [("username", .str "mallory")]

/-- The value bound to the input called `name` on a store request;
`undefined` when no such input is bound. -/
def paramValue : List SqlParam → String → JsVal
  | [], _ => .undefined
  | p :: rest, name => if p.name = name then p.value else paramValue rest name

/-- The identity value the store gives the next inserted user: one more than
the largest `USERID` held. -/
def nextUserId (rows : List JsObj) : Int :=
  1 + (rows.map (fun row => match row.get "USERID" with | .num n => n | _ => 0)).foldl max 0

/-- Modelled from the spec: the stored procedure `SP_INSERT_USER` lives in the
database, not in `src/app.js`.  Section 4.5 says it inserts the credential
record with the hashed password: one new row holding the bound inputs, column
by column, under a fresh `USERID`. -/
def insertUser (rows : List JsObj) (inputs : List SqlParam) : List JsObj :=
  rows ++ [("USERID", .num (nextUserId rows)) :: inputs.map (fun p => (p.name, p.value))]

/-- The rows the store holds after the store calls of a run were applied to
`rows`, in order. -/
def storeAfter (rows : List JsObj) : List (String × List SqlParam) → List JsObj
  | [] => rows
  | (proc, inputs) :: rest =>
    if proc = "SP_INSERT_USER" then storeAfter (insertUser rows inputs) rest
    else storeAfter rows rest

/-- The registration request of `carol`, whom `sampleUsers` does not hold. -/
def carolRegistration : JsObj :=
  [("FIRST_NAME", .str "Carol"), ("LAST_NAME", .str "Roe"), ("USERNAME", .str "carol"),
   ("PASSWORD", .str "secret123"), ("EMAIL", .str "carol@example.org")]

/-- The rows held after `carol` registered against a store holding
`sampleUsers`: the store calls of that run of `addUser`, applied to the
store. -/
def usersAfterCarol (env : Env) : List JsObj :=
  storeAfter sampleUsers (storeCalls ((addUser env carolRegistration).run (Ctx.fresh [])).2.trace)

/-- The deployment with the configured secret, after `carol` registered. -/
def prodEnvAfterCarol : Env := refEnv (.str "prod-secret") 1000 (usersAfterCarol prodEnv)

/-- The deployment without `JWT_SECRET`, after `carol` registered. -/
def noSecretEnvAfterCarol : Env := refEnv .undefined 1000 (usersAfterCarol noSecretEnv)

/-- The row of `carol` after her registration: the inputs `addUser` bound,
under the next `USERID`. -/
def carolRow : JsObj :=
  [("USERID", .num 9), ("FIRST_NAME", .str "Carol"), ("LAST_NAME", .str "Roe"),
   ("MI", .undefined), ("USERNAME", .str "carol"), ("CONTACT_NUMBER", .undefined),
   ("EMAIL", .str "carol@example.org"), ("BIRTHDATE", .undefined), ("PICTURE", .undefined),
   ("HASHED_PASSWORD", .str "$2b$10$secret123")]

/-- The token the login route issues to `carol` under `prodEnvAfterCarol`. -/
def carolToken : String := "9.1000.4600.prod-secret#9#1000#4600"

/-! ## Unfolding lemmas for the handler monad -/

theorem run_bind {α β : Type} (m : Handler α) (f : α → Handler β) (c : Ctx) :
    (m >>= f).run c =
      match m.run c with
      | (.ok a, c1) => (f a).run c1
      | (.error e, c1) => (.error e, c1) := rfl

theorem run_pure {α : Type} (a : α) (c : Ctx) :
    (Pure.pure a : Handler α).run c = (.ok a, c) := rfl

theorem run_tryCatch (body : Handler Unit) (handler : JsErr → Handler Unit) (c : Ctx) :
    (tryCatch body handler).run c =
      match body.run c with
      | (.ok a, c1) => (.ok a, c1)
      | (.error e, c1) => (handler e).run c1 := rfl

theorem run_call {α : Type} (ev : Event) (r : Except JsErr α) (c : Ctx) :
    (call ev r).run c = (r, { c with trace := c.trace ++ [ev] }) := rfl

theorem run_callCb {α : Type} (ev : Event) (r : Except JsErr α) (c : Ctx) :
    (callCb ev r).run c = (.ok r, { c with trace := c.trace ++ [ev] }) := rfl

theorem run_consoleError (label : String) (c : Ctx) :
    (consoleError label).run c =
      (.ok (), { c with trace := c.trace ++ [.consoleError label] }) := rfl

theorem run_send (status : Nat) (body : Body) (c : Ctx) :
    (send status body).run c =
      (.ok (), { c with sent := c.sent ++ [{ status := status, body := body }] }) := rfl

theorem run_setSession (k : String) (v : JsVal) (c : Ctx) :
    (setSession k v).run c = (.ok (), { c with session := c.session.set k v }) := rfl

theorem run_setUserId (v : JsVal) (c : Ctx) :
    (setUserId v).run c = (.ok (), { c with userId := v }) := rfl

theorem run_next (c : Ctx) :
    next.run c =
      (.ok (), { c with trace := c.trace ++ [.next], nextCalls := c.nextCalls + 1 }) := rfl


theorem storeCalls_append (xs ys : List Event) :
    storeCalls (xs ++ ys) = storeCalls xs ++ storeCalls ys := by
  induction xs with
  | nil => rfl
  | cons x xs ih => cases x <;> simp [storeCalls, ih]

theorem hashCalls_append (xs ys : List Event) :
    hashCalls (xs ++ ys) = hashCalls xs ++ hashCalls ys := by
  induction xs with
  | nil => rfl
  | cons x xs ih => cases x <;> simp [hashCalls, ih]

theorem JsObj.get_delete (o : JsObj) (key k : String) (h : k ≠ key) :
    (JsObj.delete o key).get k = JsObj.get o k := by
  induction o with
  | nil => rfl
  | cons kv rest ih =>
    obtain ⟨k0, v0⟩ := kv
    by_cases h0 : k0 = key
    · subst h0
      have hne : ¬ k0 = k := fun e => h e.symm
      have : JsObj.delete ((k0, v0) :: rest) k0 = JsObj.delete rest k0 := by
        simp [JsObj.delete]
      rw [this, ih]
      simp [JsObj.get, hne]
    · have : JsObj.delete ((k0, v0) :: rest) key = (k0, v0) :: JsObj.delete rest key := by
        simp [JsObj.delete, h0]
      rw [this]
      simp only [JsObj.get]
      rw [ih]

/-! ## The login route -/

/-- C1: when the lookup of `POST /api/login` returns at least one record and
the comparison of the password with the first record's `HASHED_PASSWORD`
matches, the handler answers 200 with the body
`{success: true, message: 'Login successful', accessToken, userId}`, where
`userId` is the first record's `USERID` and `accessToken` is the result of
signing `{id: USERID}` with `JWT_SECRET` and `expiresIn: '1h'`. -/
theorem login_match_responds_200 (env : Env) (body : JsObj) (c : Ctx) (user : JsObj)
    (rest : List JsObj) (accessToken : String)
    (hq : env.query loginQuery (loginInputs body) = .ok (user :: rest))
    (hc : env.compare (body.get "password") (user.get "HASHED_PASSWORD") = .ok true)
    (hs : env.sign [("id", user.get "USERID")] env.JWT_SECRET "1h" = .ok accessToken) :
    (login env body).run c =
      (.ok (),
        { c with
          session := c.session.set "userId" (user.get "USERID")
          sent := c.sent ++
            [{ status := 200,
               body := .json [("success", .bool true), ("message", .str "Login successful"),
                              ("accessToken", .str accessToken),
                              ("userId", user.get "USERID")] }]
          trace := c.trace ++
            [.query "SELECT * FROM [USER] WHERE USERNAME = @username"
               [{ name := "username", type := .VarChar, value := body.get "username" }],
             .bcryptCompare (body.get "password") (user.get "HASHED_PASSWORD"),
             .jwtSign [("id", user.get "USERID")] env.JWT_SECRET "1h"] }) := by
  simp only [loginInputs, loginQuery] at hq
  simp [login, run_tryCatch, run_bind, run_call, run_send, run_setSession, hq, hc, hs,
    loginOkBody, loginQuery]

theorem login_match_responds_200_witness :
    prodEnv.query loginQuery (loginInputs aliceLogin) = .ok (aliceRow :: []) ∧
    prodEnv.compare (aliceLogin.get "password") (aliceRow.get "HASHED_PASSWORD") = .ok true ∧
    prodEnv.sign [("id", aliceRow.get "USERID")] prodEnv.JWT_SECRET "1h" = .ok aliceToken ∧
    (login prodEnv aliceLogin).run (Ctx.fresh []) =
      (.ok (),
        { session := [("userId", .num 7)], userId := .undefined,
          sent :=
            [{ status := 200,
               body := .json [("success", .bool true), ("message", .str "Login successful"),
                              ("accessToken", .str "7.1000.4600.prod-secret#7#1000#4600"),
                              ("userId", .num 7)] }],
          trace :=
            [.query "SELECT * FROM [USER] WHERE USERNAME = @username"
               [{ name := "username", type := .VarChar, value := .str "alice" }],
             .bcryptCompare (.str "secret123") (.str "$2b$10$secret123"),
             .jwtSign [("id", .num 7)] (.str "prod-secret") "1h"],
          nextCalls := 0 }) :=
  ⟨rfl, rfl, rfl,
    login_match_responds_200 prodEnv aliceLogin (Ctx.fresh []) aliceRow [] aliceToken rfl rfl rfl⟩

/-- C2: with the signing secret configured as `prod-secret`, the login of
`alice` answers 200 with a token, and that token, presented at once as
`Authorization: Bearer <token>`, is refused by `authenticateToken`: it answers
403, leaves `req.userId` unset and does not call `next`, because it verifies
with the literal `memoreal_secret` and not with `JWT_SECRET`. -/
theorem login_token_refused_by_authenticateToken :
    prodEnv.JWT_SECRET = .str "prod-secret" ∧
    ((login prodEnv aliceLogin).run (Ctx.fresh [])).2.sent =
      [{ status := 200, body := loginOkBody aliceToken (.num 7) }] ∧
    ((authenticateToken prodEnv (some ("Bearer " ++ aliceToken))).run (Ctx.fresh [])).2 =
      { session := [], userId := .undefined,
        sent := [{ status := 403, body := .text "Forbidden" }],
        trace := [.jwtVerify aliceToken "memoreal_secret"], nextCalls := 0 } := by
  refine ⟨rfl, ?_, ?_⟩ <;> decide

/-! ## The authentication middleware -/

/-- C3: when the request has no `Authorization` header, or the header has no
second space-separated segment or an empty one, `authenticateToken` answers
401 and does nothing else: the verifier is not called, `next` is not called
and `req.userId` is left as it was. -/
theorem authenticateToken_no_token_401 (env : Env) (authorization : Option String) (c : Ctx)
    (h : authorization = none ∨
      ∃ header, authorization = some header ∧
        ((jsSplit header ' ')[1]? = none ∨ (jsSplit header ' ')[1]? = some "")) :
    (authenticateToken env authorization).run c =
      (.ok (), { c with sent := c.sent ++ [{ status := 401, body := .text "Unauthorized" }] }) := by
  rcases h with h | ⟨header, h, hseg⟩
  · subst h
    simp [authenticateToken, bearerToken, sendStatus, statusText, run_send]
  · subst h
    by_cases he : header = ""
    · simp [authenticateToken, bearerToken, sendStatus, statusText, run_send, he]
    · rcases hseg with hseg | hseg <;>
        simp [authenticateToken, bearerToken, sendStatus, statusText, run_send, he, hseg]

theorem authenticateToken_no_token_401_witness :
    ((none : Option String) = none ∨
      ∃ header, (none : Option String) = some header ∧
        ((jsSplit header ' ')[1]? = none ∨ (jsSplit header ' ')[1]? = some "")) ∧
    (some "Bearer " = none ∨
      ∃ header, some "Bearer " = some header ∧
        ((jsSplit header ' ')[1]? = none ∨ (jsSplit header ' ')[1]? = some "")) ∧
    (authenticateToken prodEnv none).run (Ctx.fresh []) =
      (.ok (), { Ctx.fresh [] with
        sent := (Ctx.fresh []).sent ++ [{ status := 401, body := .text "Unauthorized" }] }) ∧
    (authenticateToken prodEnv (some "Bearer ")).run (Ctx.fresh []) =
      (.ok (), { Ctx.fresh [] with
        sent := (Ctx.fresh []).sent ++ [{ status := 401, body := .text "Unauthorized" }] }) :=
  ⟨Or.inl rfl, Or.inr ⟨"Bearer ", rfl, Or.inr (by decide)⟩,
    authenticateToken_no_token_401 prodEnv none (Ctx.fresh []) (Or.inl rfl),
    authenticateToken_no_token_401 prodEnv (some "Bearer ") (Ctx.fresh [])
      (Or.inr ⟨"Bearer ", rfl, Or.inr (by decide)⟩)⟩

/-- C4: when the header carries a non-empty second segment `token`,
`authenticateToken` calls the verifier once, on `token`, and the outcome
decides the result.  On an error it answers 403, does not call `next` and
leaves `req.userId` as it was.  On a decoded payload `p` it sets `req.userId`
to `p.id`, calls `next` once and sends nothing. -/
theorem authenticateToken_token_present (env : Env) (header token : String) (c : Ctx)
    (ht : (jsSplit header ' ')[1]? = some token) (hne : token ≠ "") :
    (authenticateToken env (some header)).run c =
      match env.verify token verifySecret with
      | .error _ =>
        (.ok (), { c with
          sent := c.sent ++ [{ status := 403, body := .text "Forbidden" }]
          trace := c.trace ++ [.jwtVerify token verifySecret] })
      | .ok p =>
        (.ok (), { c with
          userId := p.get "id"
          trace := c.trace ++ [.jwtVerify token verifySecret, .next]
          nextCalls := c.nextCalls + 1 }) := by
  have he : header ≠ "" := by
    intro he
    subst he
    have hs : jsSplit "" ' ' = [""] := by decide
    rw [hs] at ht
    exact absurd ht (by simp)
  cases hv : env.verify token verifySecret <;>
    simp [authenticateToken, bearerToken, sendStatus, statusText, run_send, run_bind,
      run_callCb, run_setUserId, run_next, he, ht, hne, hv]

theorem authenticateToken_token_present_witness :
    (jsSplit ("Bearer " ++ literalSecretToken) ' ')[1]? = some literalSecretToken ∧
    literalSecretToken ≠ "" ∧
    (authenticateToken prodEnv (some ("Bearer " ++ literalSecretToken))).run (Ctx.fresh []) =
      match prodEnv.verify literalSecretToken verifySecret with
      | .error _ =>
        (.ok (), { Ctx.fresh [] with
          sent := (Ctx.fresh []).sent ++ [{ status := 403, body := .text "Forbidden" }]
          trace := (Ctx.fresh []).trace ++ [.jwtVerify literalSecretToken verifySecret] })
      | .ok p =>
        (.ok (), { Ctx.fresh [] with
          userId := p.get "id"
          trace := (Ctx.fresh []).trace ++ [.jwtVerify literalSecretToken verifySecret, .next]
          nextCalls := (Ctx.fresh []).nextCalls + 1 }) :=
  ⟨by decide, by decide,
    authenticateToken_token_present prodEnv ("Bearer " ++ literalSecretToken)
      literalSecretToken (Ctx.fresh []) (by decide) (by decide)⟩

/-- C5: with the signing secret configured as `prod-secret`, a token for
user 7 signed under the different secret `memoreal_secret` is accepted by
`authenticateToken`: it sends nothing, sets `req.userId` to 7 and calls
`next`, because it verifies with that literal and not with `JWT_SECRET`. -/
theorem authenticateToken_accepts_literal_secret_token :
    prodEnv.JWT_SECRET = .str "prod-secret" ∧
    jwtSign 1000 [("id", .num 7)] (.str "memoreal_secret") "1h" = .ok literalSecretToken ∧
    ((authenticateToken prodEnv (some ("Bearer " ++ literalSecretToken))).run
        (Ctx.fresh [])).2 =
      { session := [], userId := .num 7, sent := [],
        trace := [.jwtVerify literalSecretToken "memoreal_secret", .next], nextCalls := 1 } := by
  refine ⟨rfl, rfl, ?_⟩
  decide

/-! ## The login route: rejections -/

/-- C6: when the lookup of `POST /api/login` returns no record, the handler
answers 404 with `success: false` and the message `User not found`; the only
collaborator call is the lookup, so the password is not compared and no token
is signed. -/
theorem login_empty_lookup_404 (env : Env) (body : JsObj) (c : Ctx)
    (hq : env.query loginQuery (loginInputs body) = .ok []) :
    (login env body).run c =
      (.ok (),
        { c with
          sent := c.sent ++ [{ status := 404, body := loginNotFoundBody }]
          trace := c.trace ++ [.query loginQuery (loginInputs body)] }) := by
  simp only [loginInputs] at hq
  simp [login, run_tryCatch, run_bind, run_call, run_send, hq, loginInputs, loginNotFoundBody]

theorem login_empty_lookup_404_witness :
    prodEnv.query loginQuery (loginInputs carolLogin) = .ok [] ∧
    (login prodEnv carolLogin).run (Ctx.fresh []) =
      (.ok (),
        { Ctx.fresh [] with
          sent := (Ctx.fresh []).sent ++ [{ status := 404, body := loginNotFoundBody }]
          trace := (Ctx.fresh []).trace ++ [.query loginQuery (loginInputs carolLogin)] }) :=
  ⟨rfl, login_empty_lookup_404 prodEnv carolLogin (Ctx.fresh []) rfl⟩

/-- C7: when the lookup of `POST /api/login` returns a record and the
comparison of the password with that record's stored hash returns false, the
handler answers 401 with `success: false` and the message
`Invalid username or password`; the calls made are the lookup and the
comparison, so no token is signed, and the body carries none. -/
theorem login_mismatch_401 (env : Env) (body : JsObj) (c : Ctx) (user : JsObj)
    (rest : List JsObj)
    (hq : env.query loginQuery (loginInputs body) = .ok (user :: rest))
    (hc : env.compare (body.get "password") (user.get "HASHED_PASSWORD") = .ok false) :
    (login env body).run c =
      (.ok (),
        { c with
          sent := c.sent ++ [{ status := 401, body := loginMismatchBody }]
          trace := c.trace ++
            [.query loginQuery (loginInputs body),
             .bcryptCompare (body.get "password") (user.get "HASHED_PASSWORD")] }) := by
  simp only [loginInputs] at hq
  simp [login, run_tryCatch, run_bind, run_call, run_send, hq, hc, loginInputs,
    loginMismatchBody]

theorem login_mismatch_401_witness :
    prodEnv.query loginQuery (loginInputs aliceWrongLogin) = .ok (aliceRow :: []) ∧
    prodEnv.compare (aliceWrongLogin.get "password") (aliceRow.get "HASHED_PASSWORD")
      = .ok false ∧
    (login prodEnv aliceWrongLogin).run (Ctx.fresh []) =
      (.ok (),
        { Ctx.fresh [] with
          sent := (Ctx.fresh []).sent ++ [{ status := 401, body := loginMismatchBody }]
          trace := (Ctx.fresh []).trace ++
            [.query loginQuery (loginInputs aliceWrongLogin),
             .bcryptCompare (aliceWrongLogin.get "password")
               (aliceRow.get "HASHED_PASSWORD")] }) :=
  ⟨rfl, rfl, login_mismatch_401 prodEnv aliceWrongLogin (Ctx.fresh []) aliceRow [] rfl rfl⟩

/-! ## Registration and update -/

/-- C8: the password value bound on the store request is never the
plaintext.  `POST /api/addUser` hashes `PASSWORD` once with cost factor 10;
its only store call is `SP_INSERT_USER` with `HASHED_PASSWORD` bound to the
digest, made only when hashing succeeds, and the inputs do not read the
`PASSWORD` property.  `PUT /api/updateUser` with a truthy `PASSWORD` does the
same on `SP_UPDATE_USER` with `NEW_HASHED_PASSWORD`; with a falsy or missing
`PASSWORD` it does not hash and binds `null`. -/
theorem store_password_is_digest (env : Env) (username : String) (body : JsObj) (c : Ctx) :
    (hashCalls ((addUser env body).run c).2.trace =
      hashCalls c.trace ++ [(body.get "PASSWORD", 10)]) ∧
    (storeCalls ((addUser env body).run c).2.trace =
      storeCalls c.trace ++
        match env.hash (body.get "PASSWORD") 10 with
        | .ok digest => [("SP_INSERT_USER", addUserInputs body digest)]
        | .error _ => []) ∧
    (∀ digest : String,
      addUserInputs (JsObj.delete body "PASSWORD") digest = addUserInputs body digest ∧
      (addUserInputs body digest).map (fun p => p.name) =
        ["FIRST_NAME", "LAST_NAME", "MI", "USERNAME", "CONTACT_NUMBER", "EMAIL",
         "BIRTHDATE", "PICTURE", "HASHED_PASSWORD"] ∧
      (addUserInputs body digest).getLast? =
        some { name := "HASHED_PASSWORD", type := .VarChar, value := .str digest }) ∧
    (hashCalls ((updateUser env username body).run c).2.trace =
      hashCalls c.trace ++
        if (body.get "PASSWORD").truthy then [(body.get "PASSWORD", 10)] else []) ∧
    (storeCalls ((updateUser env username body).run c).2.trace =
      storeCalls c.trace ++
        if (body.get "PASSWORD").truthy then
          match env.hash (body.get "PASSWORD") 10 with
          | .ok digest =>
            [("SP_UPDATE_USER", updateUserInputs username body ++
                [{ name := "NEW_HASHED_PASSWORD", type := .VarChar, value := .str digest }])]
          | .error _ => []
        else
          [("SP_UPDATE_USER", updateUserInputs username body ++
              [{ name := "NEW_HASHED_PASSWORD", type := .VarChar, value := .null }])]) ∧
    (updateUserInputs username (JsObj.delete body "PASSWORD") = updateUserInputs username body ∧
      (updateUserInputs username body).map (fun p => p.name) =
        ["USERNAME", "FIRST_NAME", "LAST_NAME", "MI", "CONTACT_NUMBER", "EMAIL",
         "BIRTHDATE", "PICTURE"]) := by
  have hget : ∀ k : String, k ≠ "PASSWORD" →
      (JsObj.delete body "PASSWORD").get k = JsObj.get body k :=
    fun k hk => JsObj.get_delete body "PASSWORD" k hk
  refine ⟨?_, ?_, ?_, ?_, ?_, ?_, ?_⟩
  · cases hh : env.hash (body.get "PASSWORD") 10 with
    | error e =>
      simp [addUser, run_tryCatch, run_bind, run_call, run_send, run_consoleError, hh,
        hashCalls_append, hashCalls]
    | ok digest =>
      cases hx : env.execute "SP_INSERT_USER" (addUserInputs body digest) <;>
        simp [addUser, run_tryCatch, run_bind, run_call, run_send, run_consoleError, hh, hx,
          hashCalls_append, hashCalls]
  · cases hh : env.hash (body.get "PASSWORD") 10 with
    | error e =>
      simp [addUser, run_tryCatch, run_bind, run_call, run_send, run_consoleError, hh,
        storeCalls_append, storeCalls]
    | ok digest =>
      cases hx : env.execute "SP_INSERT_USER" (addUserInputs body digest) <;>
        simp [addUser, run_tryCatch, run_bind, run_call, run_send, run_consoleError, hh, hx,
          storeCalls_append, storeCalls]
  · intro digest
    refine ⟨?_, rfl, rfl⟩
    simp only [addUserInputs]
    rw [hget "FIRST_NAME" (by decide), hget "LAST_NAME" (by decide), hget "MI" (by decide),
      hget "USERNAME" (by decide), hget "CONTACT_NUMBER" (by decide),
      hget "EMAIL" (by decide), hget "BIRTHDATE" (by decide), hget "PICTURE" (by decide)]
  · by_cases ht : (body.get "PASSWORD").truthy = true
    · cases hh : env.hash (body.get "PASSWORD") 10 with
      | error e =>
        simp [updateUser, run_tryCatch, run_bind, run_call, run_callCb, run_send, run_pure,
          run_consoleError, hh, ht, hashCalls_append, hashCalls]
      | ok digest =>
        cases hx : env.execute "SP_UPDATE_USER" (updateUserInputs username body ++
            [{ name := "NEW_HASHED_PASSWORD", type := .VarChar, value := .str digest }]) <;>
          simp [updateUser, run_tryCatch, run_bind, run_call, run_callCb, run_send, run_pure,
            run_consoleError, hh, hx, ht, hashCalls_append, hashCalls]
    · cases hx : env.execute "SP_UPDATE_USER" (updateUserInputs username body ++
          [{ name := "NEW_HASHED_PASSWORD", type := .VarChar, value := .null }]) <;>
        simp [updateUser, run_tryCatch, run_bind, run_call, run_callCb, run_send, run_pure,
          run_consoleError, hx, ht, hashCalls_append, hashCalls]
  · by_cases ht : (body.get "PASSWORD").truthy = true
    · cases hh : env.hash (body.get "PASSWORD") 10 with
      | error e =>
        simp [updateUser, run_tryCatch, run_bind, run_call, run_callCb, run_send, run_pure,
          run_consoleError, hh, ht, storeCalls_append, storeCalls]
      | ok digest =>
        cases hx : env.execute "SP_UPDATE_USER" (updateUserInputs username body ++
            [{ name := "NEW_HASHED_PASSWORD", type := .VarChar, value := .str digest }]) <;>
          simp [updateUser, run_tryCatch, run_bind, run_call, run_callCb, run_send, run_pure,
            run_consoleError, hh, hx, ht, storeCalls_append, storeCalls]
    · cases hx : env.execute "SP_UPDATE_USER" (updateUserInputs username body ++
          [{ name := "NEW_HASHED_PASSWORD", type := .VarChar, value := .null }]) <;>
        simp [updateUser, run_tryCatch, run_bind, run_call, run_callCb, run_send, run_pure,
          run_consoleError, hx, ht, storeCalls_append, storeCalls]
  · simp only [updateUserInputs]
    rw [hget "FIRST_NAME" (by decide), hget "LAST_NAME" (by decide), hget "MI" (by decide),
      hget "CONTACT_NUMBER" (by decide), hget "EMAIL" (by decide),
      hget "BIRTHDATE" (by decide), hget "PICTURE" (by decide)]
  · rfl

/-- C9: the response of `POST /api/addUser` is decided by whether hashing and
the `SP_INSERT_USER` call complete.  The handler sends exactly one response
and throws nothing: 201 with `User registered successfully` when both
succeed, and 500 with the same generic body when either fails, whatever the
error is. -/
theorem addUser_response (env : Env) (body : JsObj) (c : Ctx) :
    ((addUser env body).run c).1 = .ok () ∧
    ((addUser env body).run c).2.sent =
      c.sent ++
        [match env.hash (body.get "PASSWORD") 10 with
          | .error _ => { status := 500, body := genericFailure }
          | .ok digest =>
            match env.execute "SP_INSERT_USER" (addUserInputs body digest) with
            | .error _ => { status := 500, body := genericFailure }
            | .ok _ => { status := 201, body := addUserOkBody }] := by
  cases hh : env.hash (body.get "PASSWORD") 10 with
  | error e =>
    simp [addUser, run_tryCatch, run_bind, run_call, run_send, run_consoleError, hh]
  | ok digest =>
    cases hx : env.execute "SP_INSERT_USER" (addUserInputs body digest) <;>
      simp [addUser, run_tryCatch, run_bind, run_call, run_send, run_consoleError, hh, hx,
        addUserOkBody]

/-! ## An absent stored hash -/

/-- C10, as stated, fails: `bob` is stored with a `NULL` password column, the
comparison rejects with `data and hash arguments required`, and the login
route answers 500 with the text `An unexpected error occurred.`, not the 401
of a password mismatch.  The same happens for `mallory`, whose stored hash is
malformed, when the request carries no password. -/
theorem login_absent_hash_responds_500 :
    prodEnv.query loginQuery (loginInputs bobLogin) = .ok [bobRow] ∧
    bobRow.get "HASHED_PASSWORD" = .null ∧
    prodEnv.compare (bobLogin.get "password") (bobRow.get "HASHED_PASSWORD") =
      .error { message := "data and hash arguments required" } ∧
    ((login prodEnv bobLogin).run (Ctx.fresh [])).2.sent =
      [{ status := 500, body := .text "An unexpected error occurred." }] ∧
    ((login prodEnv bobLogin).run (Ctx.fresh [])).2.sent ≠
      [{ status := 401, body := loginMismatchBody }] ∧
    legacyEnv.query loginQuery (loginInputs malloryNoPassword) = .ok [malloryRow] ∧
    malloryRow.get "HASHED_PASSWORD" = .str "notahash" ∧
    wellFormedDigest "notahash" = false ∧
    malloryNoPassword.get "password" = .undefined ∧
    ((login legacyEnv malloryNoPassword).run (Ctx.fresh [])).2.sent =
      [{ status := 500, body := .text "An unexpected error occurred." }] := by
  refine ⟨rfl, rfl, rfl, ?_, ?_, rfl, rfl, ?_, rfl, ?_⟩ <;> decide

theorem digestMatches_malformed (plaintext digest : String)
    (h : wellFormedDigest digest = false) : digestMatches plaintext digest = false := by
  unfold wellFormedDigest at h
  unfold digestMatches
  split
  · rename_i lead version cost rest heq
    rw [heq] at h
    simp only [] at h
    rw [h]
    rfl
  · rfl

/-- C10, amended: in the login flow `bcrypt.compare` treats a malformed
digest as a non-match.  For a request with a string password whose looked-up
record holds a string that is not a well-formed digest, the comparison
returns false without raising and the handler answers 401 with the mismatch
body.  When the stored hash is absent (`null` or `undefined`), and also when
the request carries no password, the comparison raises; the catch branch logs
and answers 500 with the text `An unexpected error occurred.`.  No token is
signed and the session is not written in any of these cases. -/
theorem login_malformed_or_absent_hash (env : Env) (body : JsObj) (c : Ctx) (user : JsObj)
    (rest : List JsObj)
    (hcmp : env.compare = bcryptCompare)
    (hq : env.query loginQuery (loginInputs body) = .ok (user :: rest)) :
    (∀ password digest : String,
      body.get "password" = .str password →
      user.get "HASHED_PASSWORD" = .str digest →
      wellFormedDigest digest = false →
      env.compare (body.get "password") (user.get "HASHED_PASSWORD") = .ok false ∧
      (login env body).run c =
        (.ok (),
          { c with
            sent := c.sent ++
              [{ status := 401,
                 body := .json [("success", .bool false),
                                ("message", .str "Invalid username or password")] }]
            trace := c.trace ++
              [.query loginQuery (loginInputs body),
               .bcryptCompare (.str password) (.str digest)] })) ∧
    ((user.get "HASHED_PASSWORD" = .null ∨ user.get "HASHED_PASSWORD" = .undefined ∨
        body.get "password" = .null ∨ body.get "password" = .undefined) →
      env.compare (body.get "password") (user.get "HASHED_PASSWORD") =
        .error { message := "data and hash arguments required" } ∧
      (login env body).run c =
        (.ok (),
          { c with
            sent := c.sent ++
              [{ status := 500, body := .text "An unexpected error occurred." }]
            trace := c.trace ++
              [.query loginQuery (loginInputs body),
               .bcryptCompare (body.get "password") (user.get "HASHED_PASSWORD"),
               .consoleError "SQL query error:"] })) := by
  simp only [loginInputs] at hq
  constructor
  · intro password digest hpw hd hmal
    have hc : env.compare (body.get "password") (user.get "HASHED_PASSWORD") = .ok false := by
      rw [hcmp, hpw, hd]
      simp only [bcryptCompare]
      rw [digestMatches_malformed password digest hmal]
    refine ⟨hc, ?_⟩
    rw [hpw, hd] at hc
    simp [login, run_tryCatch, run_bind, run_call, run_send, hq, hc, hpw, hd, loginInputs]
  · intro habs
    have hc : env.compare (body.get "password") (user.get "HASHED_PASSWORD") =
        .error { message := "data and hash arguments required" } := by
      rw [hcmp]
      rcases habs with h | h | h | h
      · rw [h]
        cases body.get "password" <;> rfl
      · rw [h]
        cases body.get "password" <;> rfl
      · rw [h]
        cases user.get "HASHED_PASSWORD" <;> rfl
      · rw [h]
        cases user.get "HASHED_PASSWORD" <;> rfl
    refine ⟨hc, ?_⟩
    simp [login, run_tryCatch, run_bind, run_call, run_send, run_consoleError, hq, hc,
      loginInputs]

theorem login_malformed_or_absent_hash_witness :
    legacyEnv.compare = bcryptCompare ∧
    legacyEnv.query loginQuery (loginInputs malloryLogin) = .ok (malloryRow :: []) ∧
    malloryLogin.get "password" = .str "secret123" ∧
    malloryRow.get "HASHED_PASSWORD" = .str "notahash" ∧
    wellFormedDigest "notahash" = false ∧
    (legacyEnv.compare (malloryLogin.get "password") (malloryRow.get "HASHED_PASSWORD")
        = .ok false ∧
      (login legacyEnv malloryLogin).run (Ctx.fresh []) =
        (.ok (),
          { Ctx.fresh [] with
            sent := (Ctx.fresh []).sent ++
              [{ status := 401,
                 body := .json [("success", .bool false),
                                ("message", .str "Invalid username or password")] }]
            trace := (Ctx.fresh []).trace ++
              [.query loginQuery (loginInputs malloryLogin),
               .bcryptCompare (.str "secret123") (.str "notahash")] })) :=
  ⟨rfl, rfl, rfl, rfl, by decide,
    (login_malformed_or_absent_hash legacyEnv malloryLogin (Ctx.fresh []) malloryRow [] rfl
      rfl).1 "secret123" "notahash" rfl rfl (by decide)⟩

/-! ## Further lemmas -/

theorem run_raise {α : Type} (message : String) (c : Ctx) :
    (raise message : Handler α).run c = (.error { message := message }, c) := rfl

theorem JsObj.get_set_same (o : JsObj) (k : String) (v : JsVal) :
    (JsObj.set o k v).get k = v := by
  induction o with
  | nil => simp [JsObj.set, JsObj.get]
  | cons kv rest ih =>
    obtain ⟨k0, v0⟩ := kv
    by_cases h0 : k0 = k
    · simp [JsObj.set, JsObj.get, h0]
    · simp only [JsObj.set, h0, if_false, JsObj.get]
      exact ih

theorem JsObj.get_set_ne (o : JsObj) (k k1 : String) (v : JsVal) (h : k1 ≠ k) :
    (JsObj.set o k v).get k1 = JsObj.get o k1 := by
  induction o with
  | nil =>
    have hne : ¬ k = k1 := fun e => h e.symm
    simp [JsObj.set, JsObj.get, hne]
  | cons kv rest ih =>
    obtain ⟨k0, v0⟩ := kv
    by_cases h0 : k0 = k
    · subst h0
      have hne : ¬ k0 = k1 := fun e => h e.symm
      simp [JsObj.set, JsObj.get, hne]
    · simp only [JsObj.set, h0, if_false, JsObj.get]
      rw [ih]

/-! ## Errors in the login route -/

/-- C11, as stated, fails: with the store unreachable the login route answers
500 with a text body written by `res.send`, not with a JSON body. -/
theorem login_error_body_is_text :
    downEnv.query loginQuery (loginInputs aliceLogin) =
      .error { message := "Connection is closed." } ∧
    ((login downEnv aliceLogin).run (Ctx.fresh [])).2.sent =
      [{ status := 500, body := .text "An unexpected error occurred." }] ∧
    ¬ ∃ obj, ((login downEnv aliceLogin).run (Ctx.fresh [])).2.sent =
      [{ status := 500, body := .json obj }] := by
  refine ⟨rfl, by decide, ?_⟩
  rintro ⟨obj, h⟩
  have h2 : ((login downEnv aliceLogin).run (Ctx.fresh [])).2.sent =
      [{ status := 500, body := .text "An unexpected error occurred." }] := by decide
  rw [h2] at h
  simp at h

/-- C11, amended: when the store lookup, the password comparison or the token
signing of `POST /api/login` raises, the error is caught by the route and does
not escape the handler, which sends exactly one response: status 500 with the
fixed text `An unexpected error occurred.`, the same for every error; the
session and `req.userId` are left as they were. -/
theorem login_error_caught_500 (env : Env) (body : JsObj) (c : Ctx)
    (h : (∃ e, env.query loginQuery (loginInputs body) = .error e) ∨
      (∃ user rest e, env.query loginQuery (loginInputs body) = .ok (user :: rest) ∧
        env.compare (body.get "password") (user.get "HASHED_PASSWORD") = .error e) ∨
      (∃ user rest e, env.query loginQuery (loginInputs body) = .ok (user :: rest) ∧
        env.compare (body.get "password") (user.get "HASHED_PASSWORD") = .ok true ∧
        env.sign [("id", user.get "USERID")] env.JWT_SECRET "1h" = .error e)) :
    ((login env body).run c).1 = .ok () ∧
    ((login env body).run c).2.sent = c.sent ++ [{ status := 500, body := loginErrorText }] ∧
    ((login env body).run c).2.session = c.session ∧
    ((login env body).run c).2.userId = c.userId ∧
    ((login env body).run c).2.nextCalls = c.nextCalls := by
  simp only [loginInputs] at h
  rcases h with ⟨e, hq⟩ | ⟨user, rest, e, hq, hc⟩ | ⟨user, rest, e, hq, hc, hs⟩
  · simp [login, run_tryCatch, run_bind, run_call, run_send, run_consoleError, hq,
      loginErrorText]
  · simp [login, run_tryCatch, run_bind, run_call, run_send, run_consoleError, hq, hc,
      loginErrorText]
  · simp [login, run_tryCatch, run_bind, run_call, run_send, run_consoleError, hq, hc, hs,
      loginErrorText]

theorem login_error_caught_500_witness :
    ((∃ e, noSecretEnv.query loginQuery (loginInputs aliceLogin) = .error e) ∨
      (∃ user rest e,
        noSecretEnv.query loginQuery (loginInputs aliceLogin) = .ok (user :: rest) ∧
        noSecretEnv.compare (aliceLogin.get "password") (user.get "HASHED_PASSWORD")
          = .error e) ∨
      (∃ user rest e,
        noSecretEnv.query loginQuery (loginInputs aliceLogin) = .ok (user :: rest) ∧
        noSecretEnv.compare (aliceLogin.get "password") (user.get "HASHED_PASSWORD")
          = .ok true ∧
        noSecretEnv.sign [("id", user.get "USERID")] noSecretEnv.JWT_SECRET "1h"
          = .error e)) ∧
    (((login noSecretEnv aliceLogin).run (Ctx.fresh [])).1 = .ok () ∧
      ((login noSecretEnv aliceLogin).run (Ctx.fresh [])).2.sent =
        (Ctx.fresh []).sent ++ [{ status := 500, body := loginErrorText }] ∧
      ((login noSecretEnv aliceLogin).run (Ctx.fresh [])).2.session = (Ctx.fresh []).session ∧
      ((login noSecretEnv aliceLogin).run (Ctx.fresh [])).2.userId = (Ctx.fresh []).userId ∧
      ((login noSecretEnv aliceLogin).run (Ctx.fresh [])).2.nextCalls
        = (Ctx.fresh []).nextCalls) :=
  ⟨Or.inr (Or.inr ⟨aliceRow, [], { message := "secretOrPrivateKey must have a value" },
      rfl, rfl, rfl⟩),
    login_error_caught_500 noSecretEnv aliceLogin (Ctx.fresh [])
      (Or.inr (Or.inr ⟨aliceRow, [], { message := "secretOrPrivateKey must have a value" },
        rfl, rfl, rfl⟩))⟩

/-! ## Registration, then login -/

theorem paramValue_addUserInputs (reg : JsObj) (digest : String) :
    paramValue (addUserInputs reg digest) "USERNAME" = reg.get "USERNAME" ∧
    paramValue (addUserInputs reg digest) "HASHED_PASSWORD" = .str digest := by
  constructor <;> simp [addUserInputs, paramValue]

/-- C12, as stated, fails: with `JWT_SECRET` not set, the registration of
`carol` answers 201, the store then holds her row with the digest `addUser`
bound, and comparing her password with that digest matches; yet her login
answers 500, because signing the token raises. -/
theorem register_then_login_sign_raises :
    ((addUser noSecretEnv carolRegistration).run (Ctx.fresh [])).2.sent =
      [{ status := 201,
         body := .json [("success", .bool true),
                        ("message", .str "User registered successfully")] }] ∧
    storeCalls ((addUser noSecretEnv carolRegistration).run (Ctx.fresh [])).2.trace =
      [("SP_INSERT_USER", addUserInputs carolRegistration "$2b$10$secret123")] ∧
    usersAfterCarol noSecretEnv = sampleUsers ++ [carolRow] ∧
    noSecretEnvAfterCarol.query loginQuery (loginInputs carolLogin) = .ok [carolRow] ∧
    carolRow.get "HASHED_PASSWORD" = .str "$2b$10$secret123" ∧
    noSecretEnv.hash (carolRegistration.get "PASSWORD") 10 = .ok "$2b$10$secret123" ∧
    noSecretEnvAfterCarol.compare (carolLogin.get "password") (.str "$2b$10$secret123")
      = .ok true ∧
    noSecretEnvAfterCarol.sign [("id", carolRow.get "USERID")]
        noSecretEnvAfterCarol.JWT_SECRET "1h"
      = .error { message := "secretOrPrivateKey must have a value" } ∧
    ((login noSecretEnvAfterCarol carolLogin).run (Ctx.fresh [])).2.sent =
      [{ status := 500, body := .text "An unexpected error occurred." }] := by
  refine ⟨?_, ?_, ?_, rfl, rfl, rfl, rfl, rfl, ?_⟩ <;> decide

/-- C12, amended: registration followed by login succeeds when the token can
be signed.  Suppose `POST /api/addUser` with `USERNAME` u and `PASSWORD` p
answered 201; the store then returns, for the username that request bound, a
record whose `HASHED_PASSWORD` is the value that request bound; comparing p
with the digest of p matches; and signing with the configured secret returns
a token.  Then `POST /api/login` with username u and password p throws
nothing and answers 200 with
`{success: true, message: 'Login successful', accessToken, userId}`. -/
theorem register_then_login (env envAfter : Env) (reg loginBody : JsObj) (c c2 : Ctx)
    (hu : loginBody.get "username" = reg.get "USERNAME")
    (hp : loginBody.get "password" = reg.get "PASSWORD")
    (h201 : ((addUser env reg).run c).2.sent =
      c.sent ++
        [{ status := 201,
           body := .json [("success", .bool true),
                          ("message", .str "User registered successfully")] }])
    (hstore : ∀ inputs,
      ("SP_INSERT_USER", inputs) ∈ storeCalls ((addUser env reg).run c).2.trace →
      ∃ user rest,
        envAfter.query loginQuery
          [{ name := "username", type := .VarChar, value := paramValue inputs "USERNAME" }]
          = .ok (user :: rest) ∧
        user.get "HASHED_PASSWORD" = paramValue inputs "HASHED_PASSWORD")
    (hverify : ∀ digest, env.hash (reg.get "PASSWORD") 10 = .ok digest →
      envAfter.compare (reg.get "PASSWORD") (.str digest) = .ok true)
    (hsign : ∀ user rest,
      envAfter.query loginQuery (loginInputs loginBody) = .ok (user :: rest) →
      ∃ accessToken, envAfter.sign [("id", user.get "USERID")] envAfter.JWT_SECRET "1h"
        = .ok accessToken) :
    ∃ user rest accessToken digest,
      env.hash (reg.get "PASSWORD") 10 = .ok digest ∧
      envAfter.query loginQuery (loginInputs loginBody) = .ok (user :: rest) ∧
      user.get "HASHED_PASSWORD" = .str digest ∧
      envAfter.sign [("id", user.get "USERID")] envAfter.JWT_SECRET "1h" = .ok accessToken ∧
      ((login envAfter loginBody).run c2).1 = .ok () ∧
      ((login envAfter loginBody).run c2).2.sent =
        c2.sent ++
          [{ status := 200,
             body := .json [("success", .bool true), ("message", .str "Login successful"),
                            ("accessToken", .str accessToken),
                            ("userId", user.get "USERID")] }] := by
  cases hh : env.hash (reg.get "PASSWORD") 10 with
  | error e =>
    exfalso
    revert h201
    simp [addUser, run_tryCatch, run_bind, run_call, run_send, run_consoleError, hh,
      genericFailure]
  | ok digest =>
    cases hx : env.execute "SP_INSERT_USER" (addUserInputs reg digest) with
    | error e =>
      exfalso
      revert h201
      simp [addUser, run_tryCatch, run_bind, run_call, run_send, run_consoleError, hh, hx,
        genericFailure]
    | ok rows =>
      have hmem : ("SP_INSERT_USER", addUserInputs reg digest) ∈
          storeCalls ((addUser env reg).run c).2.trace := by
        simp [addUser, run_tryCatch, run_bind, run_call, run_send, hh, hx,
          storeCalls_append, storeCalls]
      obtain ⟨user, rest, hq, hrow⟩ := hstore (addUserInputs reg digest) hmem
      rw [(paramValue_addUserInputs reg digest).1] at hq
      rw [(paramValue_addUserInputs reg digest).2] at hrow
      have hq2 : envAfter.query loginQuery (loginInputs loginBody) = .ok (user :: rest) := by
        simp only [loginInputs, hu]
        exact hq
      obtain ⟨accessToken, hs⟩ := hsign user rest hq2
      have hc : envAfter.compare (loginBody.get "password") (user.get "HASHED_PASSWORD")
          = .ok true := by
        rw [hp, hrow]
        exact hverify digest hh
      refine ⟨user, rest, accessToken, digest, rfl, hq2, hrow, hs, ?_, ?_⟩ <;>
      · simp only [loginInputs] at hq2
        simp [login, run_tryCatch, run_bind, run_call, run_send, run_setSession, hq2, hc, hs,
          loginOkBody]

theorem register_then_login_witness :
    ((addUser prodEnv carolRegistration).run (Ctx.fresh [])).2.sent =
      (Ctx.fresh []).sent ++
        [{ status := 201,
           body := .json [("success", .bool true),
                          ("message", .str "User registered successfully")] }] ∧
    usersAfterCarol prodEnv = sampleUsers ++ [carolRow] ∧
    ∃ user rest accessToken digest,
      prodEnv.hash (carolRegistration.get "PASSWORD") 10 = .ok digest ∧
      prodEnvAfterCarol.query loginQuery (loginInputs carolLogin) = .ok (user :: rest) ∧
      user.get "HASHED_PASSWORD" = .str digest ∧
      prodEnvAfterCarol.sign [("id", user.get "USERID")] prodEnvAfterCarol.JWT_SECRET "1h"
        = .ok accessToken ∧
      ((login prodEnvAfterCarol carolLogin).run (Ctx.fresh [])).1 = .ok () ∧
      ((login prodEnvAfterCarol carolLogin).run (Ctx.fresh [])).2.sent =
        (Ctx.fresh []).sent ++
          [{ status := 200,
             body := .json [("success", .bool true), ("message", .str "Login successful"),
                            ("accessToken", .str accessToken),
                            ("userId", user.get "USERID")] }] :=
  ⟨by decide, by decide,
    register_then_login prodEnv prodEnvAfterCarol carolRegistration carolLogin (Ctx.fresh [])
      (Ctx.fresh []) rfl rfl (by decide)
      (fun inputs hmem => by
        have hcalls : storeCalls ((addUser prodEnv carolRegistration).run (Ctx.fresh [])).2.trace
            = [("SP_INSERT_USER", addUserInputs carolRegistration "$2b$10$secret123")] := by
          decide
        rw [hcalls] at hmem
        simp only [List.mem_singleton, Prod.mk.injEq, true_and] at hmem
        subst hmem
        exact ⟨carolRow, [], rfl, rfl⟩)
      (fun digest hh => by
        have hd : prodEnv.hash (carolRegistration.get "PASSWORD") 10
            = .ok "$2b$10$secret123" := rfl
        rw [hd] at hh
        cases hh
        rfl)
      (fun user rest hq => by
        have hd : prodEnvAfterCarol.query loginQuery (loginInputs carolLogin)
            = .ok [carolRow] := rfl
        rw [hd] at hq
        cases hq
        exact ⟨carolToken, rfl⟩)⟩

/-! ## Which part of the header is the token -/

theorem splitChars_of_not_mem (sep : Char) (cs : List Char) (h : sep ∉ cs) :
    splitChars sep cs = [cs] := by
  induction cs with
  | nil => rfl
  | cons x xs ih =>
    have hx : ¬ x = sep := fun e => h (by simp [e])
    have hxs : sep ∉ xs := fun m => h (List.mem_cons_of_mem _ m)
    simp [splitChars, ih hxs, hx]

theorem splitChars_ne_nil (sep : Char) (cs : List Char) : splitChars sep cs ≠ [] := by
  induction cs with
  | nil => simp [splitChars]
  | cons x xs ih =>
    cases hs : splitChars sep xs with
    | nil => exact absurd hs ih
    | cons seg segs =>
      by_cases hx : x = sep <;> simp [splitChars, hs, hx]

theorem splitChars_append_sep (sep : Char) (a b : List Char) (h : sep ∉ a) :
    splitChars sep (a ++ sep :: b) = a :: splitChars sep b := by
  induction a with
  | nil =>
    cases hs : splitChars sep b with
    | nil => exact absurd hs (splitChars_ne_nil sep b)
    | cons seg segs => simp [splitChars, hs]
  | cons x xs ih =>
    have hx : ¬ x = sep := fun e => h (by simp [e])
    have hxs : sep ∉ xs := fun m => h (List.mem_cons_of_mem _ m)
    simp [splitChars, ih hxs, hx]

theorem jsSplit_scheme_token (scheme t : String)
    (hs : ' ' ∉ scheme.toList) (ht : ' ' ∉ t.toList) :
    jsSplit (scheme ++ " " ++ t) ' ' = [scheme, t] := by
  have hl : (scheme ++ " " ++ t).toList = scheme.toList ++ ' ' :: t.toList := by
    simp [String.toList]
  simp only [jsSplit, hl]
  rw [splitChars_append_sep ' ' scheme.toList t.toList hs,
    splitChars_of_not_mem ' ' t.toList ht]
  rfl

theorem jsSplit_no_space (header : String) (h : ' ' ∉ header.toList) :
    jsSplit header ' ' = [header] := by
  simp only [jsSplit]
  rw [splitChars_of_not_mem ' ' header.toList h]
  rfl

theorem authenticateToken_run_401 (env : Env) (header : String) (c : Ctx)
    (hseg : (jsSplit header ' ')[1]? = none ∨ (jsSplit header ' ')[1]? = some "") :
    (authenticateToken env (some header)).run c =
      (.ok (), { c with sent := c.sent ++ [{ status := 401, body := .text "Unauthorized" }] }) := by
  by_cases he : header = ""
  · simp [authenticateToken, bearerToken, sendStatus, statusText, run_send, he]
  · rcases hseg with hseg | hseg <;>
      simp [authenticateToken, bearerToken, sendStatus, statusText, run_send, he, hseg]

/-- C13: `authenticateToken` takes as the token the second element of the
header split on single spaces and does not look at the first.  For a header
`scheme ++ " " ++ t` with `scheme` and `t` free of spaces and `t` non-empty,
the verifier is called on `t` and the run does not depend on `scheme`, so
`Basic t` and `Bearer t` are treated alike.  A header without a space, or
whose second segment is empty, as in `Bearer`, `Bearer ` and `Bearer  t`, is
answered with 401 and the verifier is not called. -/
theorem authenticateToken_second_segment (env : Env) (c : Ctx) :
    (∀ scheme t : String, ' ' ∉ scheme.toList → ' ' ∉ t.toList → t ≠ "" →
      (authenticateToken env (some (scheme ++ " " ++ t))).run c =
        match env.verify t verifySecret with
        | .error _ =>
          (.ok (), { c with
            sent := c.sent ++ [{ status := 403, body := .text "Forbidden" }]
            trace := c.trace ++ [.jwtVerify t verifySecret] })
        | .ok p =>
          (.ok (), { c with
            userId := p.get "id"
            trace := c.trace ++ [.jwtVerify t verifySecret, .next]
            nextCalls := c.nextCalls + 1 })) ∧
    (∀ t : String, ' ' ∉ t.toList → t ≠ "" →
      (authenticateToken env (some ("Basic" ++ " " ++ t))).run c =
        (authenticateToken env (some ("Bearer" ++ " " ++ t))).run c) ∧
    (∀ header : String,
      ' ' ∉ header.toList ∨ (jsSplit header ' ')[1]? = some "" →
      (authenticateToken env (some header)).run c =
        (.ok (), { c with
          sent := c.sent ++ [{ status := 401, body := .text "Unauthorized" }] })) ∧
    (∀ header : String, header ∈ ["Bearer", "Bearer ", "Bearer  t"] →
      (authenticateToken env (some header)).run c =
        (.ok (), { c with
          sent := c.sent ++ [{ status := 401, body := .text "Unauthorized" }] })) := by
  have key : ∀ scheme t : String, ' ' ∉ scheme.toList → ' ' ∉ t.toList → t ≠ "" →
      (authenticateToken env (some (scheme ++ " " ++ t))).run c =
        match env.verify t verifySecret with
        | .error _ =>
          (.ok (), { c with
            sent := c.sent ++ [{ status := 403, body := .text "Forbidden" }]
            trace := c.trace ++ [.jwtVerify t verifySecret] })
        | .ok p =>
          (.ok (), { c with
            userId := p.get "id"
            trace := c.trace ++ [.jwtVerify t verifySecret, .next]
            nextCalls := c.nextCalls + 1 }) := by
    intro scheme t hs ht hne
    have hsplit := jsSplit_scheme_token scheme t hs ht
    have he : scheme ++ " " ++ t ≠ "" := by
      intro he
      rw [he] at hsplit
      have h0 : jsSplit "" ' ' = [""] := by decide
      rw [h0] at hsplit
      simp at hsplit
    cases hv : env.verify t verifySecret <;>
      simp [authenticateToken, bearerToken, sendStatus, statusText, run_send, run_bind,
        run_callCb, run_setUserId, run_next, he, hsplit, hne, hv]
  refine ⟨key, ?_, ?_, ?_⟩
  · intro t ht hne
    rw [key "Basic" t (by decide) ht hne, key "Bearer" t (by decide) ht hne]
  · intro header h
    apply authenticateToken_run_401
    rcases h with h | h
    · left
      rw [jsSplit_no_space header h]
      rfl
    · right
      exact h
  · intro header h
    apply authenticateToken_run_401
    simp only [List.mem_cons, List.mem_singleton, List.not_mem_nil, or_false] at h
    rcases h with h | h | h <;> subst h <;> decide

theorem authenticateToken_second_segment_witness :
    ' ' ∉ "Basic".toList ∧ ' ' ∉ literalSecretToken.toList ∧ literalSecretToken ≠ "" ∧
    (authenticateToken prodEnv (some ("Basic" ++ " " ++ literalSecretToken))).run (Ctx.fresh []) =
      (authenticateToken prodEnv (some ("Bearer" ++ " " ++ literalSecretToken))).run
        (Ctx.fresh []) ∧
    (authenticateToken prodEnv (some "Bearer  t")).run (Ctx.fresh []) =
      (.ok (), { Ctx.fresh [] with
        sent := (Ctx.fresh []).sent ++ [{ status := 401, body := .text "Unauthorized" }] }) :=
  ⟨by decide, by decide, by decide,
    (authenticateToken_second_segment prodEnv (Ctx.fresh [])).2.1 literalSecretToken
      (by decide) (by decide),
    (authenticateToken_second_segment prodEnv (Ctx.fresh [])).2.2.2 "Bearer  t" (by simp)⟩

/-! ## The session write of the login route -/

/-- C14: the login route writes `req.session.userId` only on the successful
path.  Every run sends exactly one response, with status 200, 401, 404 or
500.  When the status is not 200 (empty lookup, password mismatch, or an
error raised by a collaborator) the session is left unchanged.  When it is
200, `session.userId` equals the `userId` of the response body and every
other session property reads as before. -/
theorem login_session_frame (env : Env) (body : JsObj) (c : Ctx) :
    ∃ resp : Response,
      ((login env body).run c).2.sent = c.sent ++ [resp] ∧
      (resp.status = 200 ∨ resp.status = 401 ∨ resp.status = 404 ∨ resp.status = 500) ∧
      (resp.status ≠ 200 → ((login env body).run c).2.session = c.session) ∧
      (resp.status = 200 →
        (∃ accessToken,
          resp.body =
            loginOkBody accessToken (((login env body).run c).2.session.get "userId")) ∧
        ∀ k : String, k ≠ "userId" →
          ((login env body).run c).2.session.get k = c.session.get k) := by
  cases hq : env.query loginQuery
      [{ name := "username", type := .VarChar, value := body.get "username" }] with
  | error e =>
    refine ⟨{ status := 500, body := loginErrorText }, ?_, by simp, ?_, ?_⟩ <;>
      simp [login, run_tryCatch, run_bind, run_call, run_send, run_consoleError, hq,
        loginErrorText]
  | ok recordset =>
    cases recordset with
    | nil =>
      refine ⟨{ status := 404, body := loginNotFoundBody }, ?_, by simp, ?_, ?_⟩ <;>
        simp [login, run_tryCatch, run_bind, run_call, run_send, hq, loginNotFoundBody]
    | cons user rest =>
      cases hc : env.compare (body.get "password") (user.get "HASHED_PASSWORD") with
      | error e =>
        refine ⟨{ status := 500, body := loginErrorText }, ?_, by simp, ?_, ?_⟩ <;>
          simp [login, run_tryCatch, run_bind, run_call, run_send, run_consoleError, hq, hc,
            loginErrorText]
      | ok isPasswordMatch =>
        cases isPasswordMatch with
        | false =>
          refine ⟨{ status := 401, body := loginMismatchBody }, ?_, by simp, ?_, ?_⟩ <;>
            simp [login, run_tryCatch, run_bind, run_call, run_send, hq, hc,
              loginMismatchBody]
        | true =>
          cases hs : env.sign [("id", user.get "USERID")] env.JWT_SECRET "1h" with
          | error e =>
            refine ⟨{ status := 500, body := loginErrorText }, ?_, by simp, ?_, ?_⟩ <;>
              simp [login, run_tryCatch, run_bind, run_call, run_send, run_consoleError, hq,
                hc, hs, loginErrorText]
          | ok accessToken =>
            refine ⟨{ status := 200, body := loginOkBody accessToken (user.get "USERID") },
              ?_, by simp, ?_, ?_⟩
            · simp [login, run_tryCatch, run_bind, run_call, run_send, run_setSession, hq,
                hc, hs]
            · simp
            · intro _
              have hrun : ((login env body).run c).2.session =
                  c.session.set "userId" (user.get "USERID") := by
                simp [login, run_tryCatch, run_bind, run_call, run_send, run_setSession, hq,
                  hc, hs]
              rw [hrun]
              refine ⟨⟨accessToken, ?_⟩, ?_⟩
              · rw [JsObj.get_set_same]
              · intro k hk
                exact JsObj.get_set_ne c.session "userId" k (user.get "USERID") hk

/-! ## `POST /api/addTribute` -/

/-- C15: `POST /api/addTribute` answers every request with status 500 and the
generic failure body, never with 201, and never executes
`SP_INSERT_TRIBUTE`: the statement after `await pool.request()` calls the
identifier `input`, which nothing binds (nor `OFFEREDFLOWER`, nor
`guestbookId`), so a `ReferenceError` is raised inside the `try` block on
every run and the catch branch logs it and answers. -/
theorem addTribute_always_500 (env : Env) (body : JsObj) (c : Ctx) :
    "input" ∉ addTributeScope ∧ "OFFEREDFLOWER" ∉ addTributeScope ∧
    "guestbookId" ∉ addTributeScope ∧
    (addTribute env body).run c =
      (.ok (),
        { c with
          sent := c.sent ++ [{ status := 500, body := genericFailure }]
          trace := c.trace ++ [.consoleError "Error registering tribute:"] }) ∧
    storeCalls ((addTribute env body).run c).2.trace = storeCalls c.trace ∧
    (∀ resp ∈ ((addTribute env body).run c).2.sent, resp ∈ c.sent ∨ resp.status = 500) := by
  have hin : "input" ∉ addTributeScope := by decide
  have hrun : (addTribute env body).run c =
      (.ok (),
        { c with
          sent := c.sent ++ [{ status := 500, body := genericFailure }]
          trace := c.trace ++ [.consoleError "Error registering tribute:"] }) := by
    simp [addTribute, resolve, hin, run_tryCatch, run_bind, run_raise, run_send,
      run_consoleError]
  refine ⟨hin, by decide, by decide, hrun, ?_, ?_⟩
  · rw [hrun]
    simp [storeCalls_append, storeCalls]
  · rw [hrun]
    intro resp hresp
    simp only [List.mem_append, List.mem_singleton] at hresp
    rcases hresp with h | h
    · exact Or.inl h
    · right
      rw [h]

end Memoreal
